import Mathlib

/-!
Verification of the refresh/merge subsystem of `src/pages/index.js`
(a Supabase + SWR crypto dashboard). The component keeps four pieces of
state (`cryptos`, `liveData`, `loading`, `error`), fetches a top-20
snapshot from the `crypto_prices` table, polls a price feed via SWR, and
renders either an error panel, a spinner, or a data table. JavaScript
numbers are modelled as exact rationals; JavaScript truthiness of the
optional numeric fields (where both `undefined` and `0` are falsy) is
modelled explicitly by `jsNumOr`.
-/

namespace CryptoDashboard

/-- A record as consumed by the render loop: union of the fields read from
a CoinGecko feed row and a `crypto_prices` table row. Absent fields
(`undefined` in JS) are `none`. -/
structure PriceRecord where
  id : Option String
  name : Option String
  symbol : Option String
  image : Option String
  current_price : Option ℚ
  price : Option ℚ
  price_change_percentage_24h : Option ℚ
  change_24h : Option ℚ
  market_cap : Option ℚ
deriving DecidableEq, Repr

/-- A parsed JSON body as held by SWR's `data`: either an array of records
(the normal feed payload) or a non-array JSON object (e.g. a CoinGecko
rate-limit error body). Both are truthy values in JavaScript. -/
inductive JsValue where
  | arr (records : List PriceRecord)
  | obj
deriving DecidableEq, Repr

/-- JavaScript truthiness of a parsed JSON array/object: both are truthy
(an empty array included). -/
def JsValue.truthy : JsValue → Bool
  | _ => true

/-- The component state: `cryptos` (table snapshot, `useState([])`),
`liveData` (SWR's `data`, `undefined` until a successful poll),
`loading` (`useState(true)`) and `error` (`useState(null)`). -/
structure RefreshState where
  cryptos : List PriceRecord
  liveData : Option JsValue
  loading : Bool
  error : Option String
deriving DecidableEq, Repr

/-- State at mount time: empty table snapshot, no live data, loading, no
error. -/
def initialState : RefreshState :=
  { cryptos := [], liveData := none, loading := true, error := none }

/-- `const displayData = liveData || cryptos` — JavaScript `||` returns the
left operand when it is truthy; SWR's `data` is `undefined` before the
first successful poll, and any parsed array or object is truthy. -/
def displayData (st : RefreshState) : JsValue :=
  match st.liveData with
  | some v => if v.truthy then v else .arr st.cryptos
  | none => .arr st.cryptos

/-- Claim C1: `resolveDisplayList` returns `liveRecords` whenever it is
present — including an empty list from a successful poll — and returns
`tableRecords` otherwise; the two sources are never merged record by
record (the result is always exactly one of the two). -/
theorem displayData_source_precedence (st : RefreshState) :
    (∀ v : JsValue, st.liveData = some v → displayData st = v) ∧
    (st.liveData = none → displayData st = .arr st.cryptos) ∧
    displayData st = st.liveData.getD (.arr st.cryptos) := by
  refine ⟨?_, ?_, ?_⟩
  · intro v hv
    simp [displayData, hv, JsValue.truthy]
  · intro hv
    simp [displayData, hv]
  · cases hlv : st.liveData with
    | none => simp [displayData, hlv]
    | some v => simp [displayData, hlv, JsValue.truthy]

/-- A sample table row (as the Supabase table would deliver it: `price`,
`change_24h` and `market_cap` set, feed-only fields absent). -/
def sampleTableRow : PriceRecord :=
  { id := some "btc", name := some "Bitcoin", symbol := some "btc",
    image := none, current_price := none, price := some 100,
    price_change_percentage_24h := none, change_24h := some 1,
    market_cap := some 5 }

/-- Witness for C1: with a successful but empty poll (`liveData = some []`)
and a non-trivial table snapshot, the display list is the empty live list,
not the table snapshot. -/
theorem displayData_source_precedence_witness :
    displayData { cryptos := [sampleTableRow], liveData := some (.arr []),
                  loading := false, error := none } = .arr [] :=
  (displayData_source_precedence _).1 (.arr []) rfl

/-- The query issued by `fetchCryptos`:
`.from('crypto_prices').select('*').order('market_cap', { ascending: false }).limit(20)`. -/
structure TableQuery where
  table : String
  orderBy : String
  ascending : Bool
  limit : Nat
deriving DecidableEq, Repr

/-- The concrete query of the source. -/
def cryptoQuery : TableQuery :=
  { table := "crypto_prices", orderBy := "market_cap", ascending := false,
    limit := 20 }

/-- The outcome of one awaited Supabase query: either a `{ data, error }`
response (where `data` may be `null`) or a rejected promise with a
message (any transport failure; its `.message` is what the catch block
reads). -/
inductive QueryOutcome where
  | response (data : Option (List PriceRecord)) (error : Option String)
  | rejected (msg : String)
deriving DecidableEq, Repr

/-- The body of `fetchCryptos`, applied to the state it reads and the
outcome of its awaited query:
`try { setLoading(true); ...; if (error) throw error; setCryptos(data || []) }
catch (error) { setError(error.message) } finally { setLoading(false) }`.
The transient `setLoading(true)` is overwritten by the `finally` before
the function returns, so the returned state has `loading = false` in
every case; nothing is thrown past the catch-all handler (the function is
total). -/
def fetchCryptos (st : RefreshState) (o : QueryOutcome) : RefreshState :=
  match o with
  | .response data none =>
      { st with cryptos := data.getD [], loading := false }
  | .response _ (some e) =>
      { st with error := some e, loading := false }
  | .rejected m =>
      { st with error := some m, loading := false }

/-- Claim C2 (counterexample): the claim says a successful fetch clears
`lastError`; on the state whose `error` is `some "boom"`, a successful
fetch returning an empty row set leaves `error` still set. -/
theorem fetchCryptos_success_does_not_clear_error :
    (fetchCryptos { cryptos := [], liveData := none, loading := false,
                    error := some "boom" }
      (.response (some []) none)).error = some "boom" := rfl

/-- Claim C2 (amended): a successful fetch replaces `tableRecords` with
the fetched rows (empty sequence if `data` is `null`) and finishes with
`isLoading = false`, but it does NOT clear `lastError`: the error field is
left exactly as it was, so an earlier failure message survives every
subsequent successful fetch. -/
theorem fetchCryptos_success_effect (st : RefreshState)
    (data : Option (List PriceRecord)) :
    (fetchCryptos st (.response data none)).cryptos = data.getD [] ∧
    (fetchCryptos st (.response data none)).error = st.error ∧
    (fetchCryptos st (.response data none)).loading = false ∧
    (fetchCryptos st (.response data none)).liveData = st.liveData := by
  simp [fetchCryptos]

/-- Claim C3: a failing fetch (an error in the response, or a rejected
promise) sets `lastError` to the failure's message, leaves `tableRecords`
unchanged, and — like every outcome, success included — returns with
`isLoading = false`; `fetchCryptos` is a total function into
`RefreshState`, so no failure escapes it. -/
theorem fetchCryptos_failure_effect (st : RefreshState) (d : Option (List PriceRecord))
    (e m : String) :
    (fetchCryptos st (.response d (some e))).error = some e ∧
    (fetchCryptos st (.response d (some e))).cryptos = st.cryptos ∧
    (fetchCryptos st (.rejected m)).error = some m ∧
    (fetchCryptos st (.rejected m)).cryptos = st.cryptos ∧
    (∀ o : QueryOutcome, (fetchCryptos st o).loading = false) := by
  refine ⟨rfl, rfl, rfl, rfl, ?_⟩
  intro o
  cases o with
  | response data err => cases err <;> rfl
  | rejected m => rfl

/-- `!displayData.length` of the render guard: an array is "empty" when
its length is 0; a non-array object has no `length` property, and
`!undefined` is `true` in JavaScript. -/
def JsValue.lengthFalsy : JsValue → Bool
  | .arr l => l.isEmpty
  | .obj => true

/-- What the component returns: the early-return error panel
(`if (error) return ...`), the spinner branch, or the data table. -/
inductive RenderOutput where
  | errorPanel (msg : String)
  | spinner
  | dataTable (rows : JsValue)
deriving DecidableEq, Repr

/-- The render dispatch of `Home`:
`if (error) return <error panel/>` before anything else, then
`loading && !displayData.length ? <spinner/> : <table of displayData/>`. -/
def render (st : RefreshState) : RenderOutput :=
  match st.error with
  | some m => .errorPanel m
  | none =>
      if st.loading && (displayData st).lengthFalsy then .spinner
      else .dataTable (displayData st)

/-- Claim C4: whenever `lastError` is set the error panel replaces the
whole dashboard (in particular when no loading is indicated), taking
precedence over any data; with `lastError` unset, the spinner is rendered
exactly when `isLoading` is true and the resolved display list is empty,
and the data table of the resolved list is rendered otherwise. -/
theorem render_dispatch (st : RefreshState) :
    (∀ m, st.error = some m → render st = .errorPanel m) ∧
    (st.error = none →
      ((render st = .spinner ↔
          st.loading = true ∧ (displayData st).lengthFalsy = true) ∧
        (¬(st.loading = true ∧ (displayData st).lengthFalsy = true) →
          render st = .dataTable (displayData st)))) := by
  constructor
  · intro m hm
    simp [render, hm]
  · intro hn
    constructor
    · constructor
      · intro hr
        by_contra hcon
        rw [not_and_or] at hcon
        rcases hcon with h | h
        · simp [render, hn, Bool.eq_false_iff.mpr h] at hr
        · simp [render, hn, Bool.eq_false_iff.mpr h] at hr
      · rintro ⟨h1, h2⟩
        simp [render, hn, h1, h2]
    · intro hcon
      rw [not_and_or] at hcon
      rcases hcon with h | h
      · simp [render, hn, Bool.eq_false_iff.mpr h]
      · simp [render, hn, Bool.eq_false_iff.mpr h]

/-- Witness for C4: on a state with an error set (and loading finished),
the render is the dedicated error panel, even though live data is
present. -/
theorem render_dispatch_witness :
    render { cryptos := [], liveData := some (.arr [sampleTableRow]),
             loading := false, error := some "boom" } = .errorPanel "boom" :=
  (render_dispatch _).1 "boom" rfl

/-- SWR's handling of one poll tick: a fulfilled fetcher replaces `data`
with the parsed value; a rejected fetcher leaves `data` at its previous
value (SWR keeps the last successful result and retries on the next
tick). -/
def swrUpdate (live : Option JsValue) (r : Except Unit JsValue) : Option JsValue :=
  match r with
  | .ok v => some v
  | .error _ => live

/-- One state-changing event of the mounted component: completion of a
table fetch, or completion of one SWR poll tick. -/
inductive Ev where
  | table (o : QueryOutcome)
  | poll (r : Except Unit JsValue)
deriving Repr

/-- The state transition for one event. -/
def stepState (st : RefreshState) : Ev → RefreshState
  | .table o => fetchCryptos st o
  | .poll r => { st with liveData := swrUpdate st.liveData r }

/-- `market_cap` as the ordering key (the table column the query orders
by; absent values keyed as 0). -/
def recMarketCap (r : PriceRecord) : ℚ := r.market_cap.getD 0

/-- The list is in descending `market_cap` order. -/
def SortedByMarketCapDesc (l : List PriceRecord) : Prop :=
  l.Pairwise (fun a b => recMarketCap b ≤ recMarketCap a)

instance (l : List PriceRecord) : Decidable (SortedByMarketCapDesc l) := by
  unfold SortedByMarketCapDesc
  infer_instance

/-- The table service honors the issued query (`cryptoQuery`): any rows a
successful response delivers are in descending `market_cap` order and at
most `cryptoQuery.limit` many. Events other than a successful fetch carry
no obligation. -/
def HonorsQuery : Ev → Prop
  | .table (.response (some rows) none) =>
      SortedByMarketCapDesc rows ∧ rows.length ≤ cryptoQuery.limit
  | _ => True

/-- The reachable states of one mounted component instance: the mount
state, closed under events whose payloads honor the issued query. -/
inductive Reach : RefreshState → Prop
  | init : Reach initialState
  | next {st : RefreshState} {e : Ev} :
      Reach st → HonorsQuery e → Reach (stepState st e)

/-- Claim C5: for every reachable state (table honoring the query's
ordering and limit), `tableRecords` is in descending `market_cap` order
and holds at most 20 entries — it starts empty and is only ever replaced
wholesale by a successful fetch's rows. -/
theorem reach_cryptos_sorted_capped (st : RefreshState) (h : Reach st) :
    SortedByMarketCapDesc st.cryptos ∧ st.cryptos.length ≤ 20 := by
  induction h with
  | init =>
      constructor
      · exact List.Pairwise.nil
      · simp [initialState]
  | next hr hg ih =>
      rename_i st' e
      cases e with
      | table o =>
          cases o with
          | response data err =>
              cases err with
              | none =>
                  cases data with
                  | none =>
                      constructor
                      · exact List.Pairwise.nil
                      · simp [stepState, fetchCryptos]
                  | some rows =>
                      simpa [stepState, fetchCryptos, HonorsQuery,
                        cryptoQuery] using hg
              | some e => simpa [stepState, fetchCryptos] using ih
          | rejected m => simpa [stepState, fetchCryptos] using ih
      | poll r => simpa [stepState] using ih

/-- Witness for C5: a fetch delivering two rows in descending market-cap
order reaches a state whose snapshot is sorted and within the cap. -/
theorem reach_cryptos_sorted_capped_witness :
    SortedByMarketCapDesc (stepState initialState
        (.table (.response (some [sampleTableRow,
          { sampleTableRow with id := some "eth", market_cap := some 2 }]) none))).cryptos ∧
      (stepState initialState
        (.table (.response (some [sampleTableRow,
          { sampleTableRow with id := some "eth", market_cap := some 2 }]) none))).cryptos.length ≤ 20 :=
  reach_cryptos_sorted_capped _
    (Reach.next Reach.init (by constructor <;> decide))

/-- JavaScript `a || b` where `a` is an optional numeric field: both
`undefined` (absence) and `0` are falsy, so the right operand is taken in
those cases. -/
def jsNumOr (a : Option ℚ) (b : ℚ) : ℚ :=
  match a with
  | some x => if x = 0 then b else x
  | none => b

/-- `const price = crypto.current_price || crypto.price || 0`. -/
def resolvedPrice (r : PriceRecord) : ℚ :=
  jsNumOr r.current_price (jsNumOr r.price 0)

/-- `const change = crypto.price_change_percentage_24h || crypto.change_24h || 0`. -/
def resolvedChange (r : PriceRecord) : ℚ :=
  jsNumOr r.price_change_percentage_24h (jsNumOr r.change_24h 0)

/-- `const marketCap = crypto.market_cap || 0`. -/
def resolvedMarketCap (r : PriceRecord) : ℚ :=
  jsNumOr r.market_cap 0

/-- Claim C6: each display quantity is resolved to a single numeric value
from its two source fields — `current_price`/`price` for the price and
`price_change_percentage_24h`/`change_24h` for the change — defaulting to
0 when both are absent; the market cap defaults to 0 when absent. A
present nonzero feed field wins, and with the feed field absent the table
field is taken. -/
theorem resolved_fields (r : PriceRecord) :
    (r.current_price = none → r.price = none → resolvedPrice r = 0) ∧
    (∀ x : ℚ, r.current_price = some x → x ≠ 0 → resolvedPrice r = x) ∧
    (∀ y : ℚ, r.current_price = none → r.price = some y → resolvedPrice r = y) ∧
    (r.price_change_percentage_24h = none → r.change_24h = none →
      resolvedChange r = 0) ∧
    (∀ x : ℚ, r.price_change_percentage_24h = some x → x ≠ 0 →
      resolvedChange r = x) ∧
    (∀ y : ℚ, r.price_change_percentage_24h = none → r.change_24h = some y →
      resolvedChange r = y) ∧
    (r.market_cap = none → resolvedMarketCap r = 0) ∧
    (∀ m : ℚ, r.market_cap = some m → 0 ≤ m → resolvedMarketCap r = m) := by
  refine ⟨?_, ?_, ?_, ?_, ?_, ?_, ?_, ?_⟩
  · intro h1 h2; simp [resolvedPrice, jsNumOr, h1, h2]
  · intro x h1 hx; simp [resolvedPrice, jsNumOr, h1, hx]
  · intro y h1 h2
    rcases eq_or_ne y 0 with hy | hy
    · simp [resolvedPrice, jsNumOr, h1, h2, hy]
    · simp [resolvedPrice, jsNumOr, h1, h2, hy]
  · intro h1 h2; simp [resolvedChange, jsNumOr, h1, h2]
  · intro x h1 hx; simp [resolvedChange, jsNumOr, h1, hx]
  · intro y h1 h2
    rcases eq_or_ne y 0 with hy | hy
    · simp [resolvedChange, jsNumOr, h1, h2, hy]
    · simp [resolvedChange, jsNumOr, h1, h2, hy]
  · intro h; simp [resolvedMarketCap, jsNumOr, h]
  · intro m h hm
    rcases eq_or_ne m 0 with hy | hy
    · simp [resolvedMarketCap, jsNumOr, h, hy]
    · simp [resolvedMarketCap, jsNumOr, h, hy]

/-- Witness for C6: on a record with every source field absent, all three
display quantities resolve to 0; on the sample table row the table fields
come through. -/
theorem resolved_fields_witness :
    resolvedPrice { id := none, name := none, symbol := none, image := none,
                    current_price := none, price := none,
                    price_change_percentage_24h := none, change_24h := none,
                    market_cap := none } = 0 ∧
      resolvedPrice sampleTableRow = 100 ∧
      resolvedMarketCap sampleTableRow = 5 :=
  ⟨(resolved_fields _).1 rfl rfl,
    (resolved_fields sampleTableRow).2.2.1 100 rfl rfl,
    (resolved_fields sampleTableRow).2.2.2.2.2.2.2 5 rfl (by norm_num)⟩

/-- The subscription opened on mount:
`.channel('crypto_changes').on('postgres_changes', { event: '*', schema: 'public', table: 'crypto_prices' }, handler).subscribe()`. -/
structure SubscriptionConfig where
  channel : String
  event : String
  schema : String
  table : String
deriving DecidableEq, Repr

/-- The concrete subscription of the source. -/
def cryptoSubscription : SubscriptionConfig :=
  { channel := "crypto_changes", event := "*", schema := "public",
    table := "crypto_prices" }

/-- A change-notification payload: which kind of row event fired and the
affected row images, as Supabase delivers them. -/
inductive DbEventKind where
  | insert
  | update
  | delete
deriving DecidableEq, Repr

/-- The payload handed to the subscription callback. -/
structure NotificationPayload where
  eventType : DbEventKind
  newRow : Option PriceRecord
  oldRow : Option PriceRecord
deriving DecidableEq, Repr

/-- What a coordinator callback decides to do. -/
inductive Action where
  | refetchTable (q : TableQuery)
deriving DecidableEq, Repr

/-- The subscription callback:
`(payload) => { console.log('Change received!', payload); fetchCryptos() }` —
it re-issues the full table query without reading the payload. -/
def onChangeNotification (_ : NotificationPayload) : Action :=
  .refetchTable cryptoQuery

/-- Claim C7: every change notification — any insert, update or delete,
whatever row it carries — triggers an unconditional refetch of the full
top-20 snapshot: the callback's output is the same refetch action for all
payloads, the query it re-issues is capped at 20 rows ordered by
descending market cap, and the subscription's event mask is the wildcard
covering all three event kinds. -/
theorem notification_refetches_unconditionally (p q : NotificationPayload) :
    onChangeNotification p = .refetchTable cryptoQuery ∧
    onChangeNotification p = onChangeNotification q ∧
    cryptoSubscription.event = "*" ∧
    cryptoQuery.limit = 20 ∧ cryptoQuery.ascending = false ∧
    cryptoQuery.orderBy = "market_cap" :=
  ⟨rfl, rfl, rfl, rfl, rfl, rfl⟩

/-- `Math.abs(change).toFixed(2)`: the absolute value rendered with
exactly two fraction digits, rounding to the nearest hundredth with ties
away from zero (the `toFixed` rule for a non-negative argument; the
binary-float representation step is not modelled — the numbers here are
exact rationals). -/
def absToFixed2 (q : ℚ) : String :=
  let n : ℕ := (⌊|q| * 100 + 1 / 2⌋).toNat
  toString (n / 100) ++ "." ++ (if n % 100 < 10 then "0" else "") ++
    toString (n % 100)

/-- The rendered 24h-change badge: arrow glyph, green-vs-red styling flag,
and the visible text. -/
structure ChangeBadge where
  arrow : String
  positiveStyle : Bool
  text : String
deriving DecidableEq, Repr

/-- The badge computation of the row renderer:
`const isPositive = change >= 0` and
`{isPositive ? '↑' : '↓'} {Math.abs(change).toFixed(2)}%` with
`isPositive ? green : red` styling. -/
def changeBadge (change : ℚ) : ChangeBadge :=
  let isPositive := decide (0 ≤ change)
  { arrow := if isPositive then "↑" else "↓",
    positiveStyle := isPositive,
    text := (if isPositive then "↑" else "↓") ++ " " ++
      absToFixed2 change ++ "%" }

/-- Claim C8: the badge shows the up arrow with positive (green) styling
exactly when the resolved change is ≥ 0 and the down arrow with negative
(red) styling otherwise, and its text is the arrow followed by the
absolute change rounded to two decimals and a percent sign; concretely,
change -3.456 renders as the badge `↓ 3.46%` with negative styling. -/
theorem changeBadge_spec (q : ℚ) :
    ((0 : ℚ) ≤ q →
      (changeBadge q).arrow = "↑" ∧ (changeBadge q).positiveStyle = true) ∧
    (¬(0 : ℚ) ≤ q →
      (changeBadge q).arrow = "↓" ∧ (changeBadge q).positiveStyle = false) ∧
    (changeBadge q).text =
      (changeBadge q).arrow ++ " " ++ absToFixed2 q ++ "%" ∧
    changeBadge (-3456 / 1000) =
      { arrow := "↓", positiveStyle := false, text := "↓ 3.46%" } := by
  refine ⟨?_, ?_, ?_, ?_⟩
  · intro h; simp [changeBadge, h]
  · intro h; simp [changeBadge, h]
  · by_cases h : (0 : ℚ) ≤ q <;> simp [changeBadge, h]
  · have hq : ¬(0 : ℚ) ≤ -3456 / 1000 := by norm_num
    have hf : (⌊|(-3456 / 1000 : ℚ)| * 100 + 1 / 2⌋) = 346 := by
      rw [abs_of_nonpos (by norm_num), Int.floor_eq_iff]
      constructor <;> norm_num
    simp only [changeBadge, absToFixed2, decide_eq_false hq, hf]
    decide

/-- Witness for C8: the negative-change branch at the spec's concrete
input. -/
theorem changeBadge_spec_witness :
    (changeBadge (-3456 / 1000)).arrow = "↓" ∧
      (changeBadge (-3456 / 1000)).positiveStyle = false :=
  (changeBadge_spec (-3456 / 1000)).2.1 (by norm_num)

/-- The component instance together with its mount status and the
change-notification subscription it owns. -/
structure SysState where
  refresh : RefreshState
  mounted : Bool
  subscriptionOpen : Bool
deriving DecidableEq, Repr

/-- A lifecycle-level event: the unmount cleanup
(`return () => { subscription.unsubscribe() }`), or the completion of an
in-flight fetch/poll. The source's completion handlers call the state
setters directly — there is no mounted flag, abort controller or other
guard in `fetchCryptos`, so a completion updates `refresh` whether or not
the component is still mounted. -/
inductive SysEv where
  | unmount
  | complete (e : Ev)

/-- The lifecycle transition. -/
def sysStep (s : SysState) : SysEv → SysState
  | .unmount => { s with mounted := false, subscriptionOpen := false }
  | .complete e => { s with refresh := stepState s.refresh e }

/-- A freshly mounted instance. -/
def mountedSys : SysState :=
  { refresh := initialState, mounted := true, subscriptionOpen := true }

/-- Claim C9 (code evaluated at the failing input): unmount does close the
subscription, but a table response that completes after unmount is still
applied — starting from a mounted instance with an empty snapshot, the
trace (unmount, then a one-row fetch completion) ends unmounted with the
subscription closed and `tableRecords` freshly overwritten, so the
post-unmount write the claim rules out does happen. -/
theorem post_unmount_response_is_applied :
    (sysStep (sysStep mountedSys .unmount)
        (.complete (.table (.response (some [sampleTableRow]) none)))).mounted
        = false ∧
    (sysStep (sysStep mountedSys .unmount)
        (.complete (.table (.response (some [sampleTableRow]) none)))).subscriptionOpen
        = false ∧
    (sysStep (sysStep mountedSys .unmount)
        (.complete (.table (.response (some [sampleTableRow]) none)))).refresh.cryptos
        = [sampleTableRow] ∧
    mountedSys.refresh.cryptos = [] :=
  ⟨rfl, rfl, rfl, rfl⟩

/-- An HTTP response as `fetch` resolves it: a status line (with its `ok`
flag) and the result of parsing the body as JSON (`none` when `res.json()`
would reject). -/
structure HttpResponse where
  status : Nat
  ok : Bool
  body : Option JsValue
deriving Repr

/-- The SWR fetcher of the source:
`async (url) => { const res = await fetch(url); return res.json() }` —
it returns the parsed body and never consults `res.ok` or `res.status`. -/
def fetcher (r : HttpResponse) : Except Unit JsValue :=
  match r.body with
  | some v => .ok v
  | none => .error ()

/-- Claim C10: the fetcher is independent of the HTTP status — any
response whose body parses as JSON (a non-array rate-limit error object
included) counts as a success whose value replaces `liveData`, thereby
superseding the table snapshot in the display list; only a body that
fails to parse (or a rejected fetch) leaves `liveData` at its previous
value. -/
theorem fetcher_ignores_status (s1 s2 : Nat) (o1 o2 : Bool)
    (b : Option JsValue) (live : Option JsValue) (st : RefreshState) :
    fetcher { status := s1, ok := o1, body := b } =
      fetcher { status := s2, ok := o2, body := b } ∧
    (∀ v : JsValue, b = some v →
      fetcher { status := s1, ok := o1, body := b } = .ok v ∧
      swrUpdate live (fetcher { status := s1, ok := o1, body := b }) = some v) ∧
    (b = none →
      swrUpdate live (fetcher { status := s1, ok := o1, body := b }) = live) ∧
    (∀ v : JsValue, displayData { st with liveData := some v } = v) := by
  refine ⟨rfl, ?_, ?_, ?_⟩
  · intro v hv
    subst hv
    exact ⟨rfl, rfl⟩
  · intro hb
    subst hb
    rfl
  · intro v
    simp [displayData, JsValue.truthy]

/-- Witness for C10: a 429 rate-limit response with a non-array JSON error
body counts as a poll success; its body replaces `liveData` and then
supersedes a non-empty table snapshot in the display list. -/
theorem fetcher_ignores_status_witness :
    (fetcher { status := 429, ok := false, body := some .obj } = .ok .obj ∧
      swrUpdate none (fetcher { status := 429, ok := false, body := some .obj })
        = some .obj) ∧
    displayData { cryptos := [sampleTableRow], liveData := some .obj,
                  loading := false, error := none } = .obj :=
  ⟨(fetcher_ignores_status 429 200 false true (some .obj) none initialState).2.1
      .obj rfl,
    (fetcher_ignores_status 429 200 false true (some .obj) none
      { cryptos := [sampleTableRow], liveData := some .obj,
        loading := false, error := none }).2.2.2 .obj⟩

end CryptoDashboard
